import Mathlib

/-!
Shallow embedding of `src/win_delay_load_hook.c` and
`src/win_delay_load_hook.cc` from chjj/cmake-node.

Modelling conventions:
* Pointers and handles (`FARPROC`, `HMODULE`) are natural numbers, with `0`
  playing the role of `NULL`.
* C strings (`info->szDll`, the `NODE_HOST_BINARY` constant) are NUL-free
  byte lists (`List Nat`).
* The build-configured constant `NODE_HOST_BINARY` and the result of
  `GetModuleHandle(NULL)` (the no-name module lookup) are parameters of the
  embedded hook, since both are supplied by the environment.
* `dliNotePreLoadLibrary` is the event code from `delayimp.h`.
-/

/-- ASCII lowercasing of a single byte, as `tolower` behaves in the C locale
on the byte values `_stricmp` compares. -/
def toLowerByte (c : Nat) : Nat :=
  if 65 ≤ c ∧ c ≤ 90 then c + 32 else c

/-- `_stricmp` on NUL-free byte lists: compare the two strings byte by byte
after lowercasing, returning the signed difference at the first mismatch
(the end of a list stands for the NUL terminator, byte value `0`). -/
def stricmp : List Nat → List Nat → Int
  | [], [] => 0
  | [], b :: _ => (0 : Int) - (toLowerByte b : Int)
  | a :: _, [] => (toLowerByte a : Int)
  | a :: as, b :: bs =>
      if toLowerByte a = toLowerByte b then stricmp as bs
      else (toLowerByte a : Int) - (toLowerByte b : Int)

/-- The `DelayLoadInfo` descriptor from `delayimp.h` (pointer-valued fields
are modelled as numbers; `dlp` is collapsed to its union payload). Only
`szDll` is ever read by the hook. -/
structure DelayLoadInfo where
  cb : Nat
  pidd : Nat
  ppfn : Nat
  szDll : List Nat
  dlp : Nat
  hmodCur : Nat
  pfnCur : Nat
  dwLastError : Nat
deriving DecidableEq

/-- The `dliNotePreLoadLibrary` notification code from `delayimp.h`. -/
def dliNotePreLoadLibrary : Nat := 1

namespace WinDelayLoadHookC

/-- `load_exe_hook` from `src/win_delay_load_hook.c`:
if the event is not the pre-load notification, return NULL; if the requested
name does not case-insensitively equal `NODE_HOST_BINARY`, return NULL;
otherwise return `GetModuleHandle(NULL)` cast to `FARPROC`. -/
def load_exe_hook (NODE_HOST_BINARY : List Nat) (getModuleHandleNull : Nat)
    (event : Nat) (info : DelayLoadInfo) : Nat :=
  if event ≠ dliNotePreLoadLibrary then 0
  else if stricmp info.szDll NODE_HOST_BINARY ≠ 0 then 0
  else getModuleHandleNull

/-- `__pfnDliNotifyHook2 = load_exe_hook;` from `src/win_delay_load_hook.c`. -/
def __pfnDliNotifyHook2 : List Nat → Nat → Nat → DelayLoadInfo → Nat :=
  load_exe_hook

end WinDelayLoadHookC

namespace WinDelayLoadHookCC

/-- `load_exe_hook` from `src/win_delay_load_hook.cc` (the C++ variant; its
body is line-for-line that of the C variant). -/
def load_exe_hook (NODE_HOST_BINARY : List Nat) (getModuleHandleNull : Nat)
    (event : Nat) (info : DelayLoadInfo) : Nat :=
  if event ≠ dliNotePreLoadLibrary then 0
  else if stricmp info.szDll NODE_HOST_BINARY ≠ 0 then 0
  else getModuleHandleNull

/-- `decltype(__pfnDliNotifyHook2) __pfnDliNotifyHook2 = load_exe_hook;`
from `src/win_delay_load_hook.cc`. -/
def __pfnDliNotifyHook2 : List Nat → Nat → Nat → DelayLoadInfo → Nat :=
  load_exe_hook

end WinDelayLoadHookCC

/-- The hook at the pointer level: the descriptor argument is a nullable
pointer (`Option DelayLoadInfo`), and the result is `none` exactly when the
hook would dereference a null descriptor. The branch order transliterates
the source: the event test precedes the only read of `info->szDll`. -/
def load_exe_hookDeref (NODE_HOST_BINARY : List Nat) (getModuleHandleNull : Nat)
    (event : Nat) (pinfo : Option DelayLoadInfo) : Option Nat :=
  if event ≠ dliNotePreLoadLibrary then some 0
  else
    match pinfo with
    | none => none
    | some info =>
        if stricmp info.szDll NODE_HOST_BINARY ≠ 0 then some 0
        else some getModuleHandleNull

/-- On a non-null descriptor the pointer-level hook agrees with the
value-level hook. -/
theorem load_exe_hookDeref_some (host : List Nat) (m event : Nat)
    (info : DelayLoadInfo) :
    load_exe_hookDeref host m event (some info) =
      some (WinDelayLoadHookC.load_exe_hook host m event info) := by
  unfold load_exe_hookDeref WinDelayLoadHookC.load_exe_hook
  by_cases h : event ≠ dliNotePreLoadLibrary <;>
    simp [h, apply_ite Option.some]

/-- Sample byte strings and descriptors used by the concrete witnesses. -/
def appExeLower : List Nat := [97, 112, 112, 46, 101, 120, 101]

def appExeUpper : List Nat := [65, 80, 80, 46, 69, 88, 69]

def otherDll : List Nat := [111, 116, 104, 101, 114, 46, 100, 108, 108]

/-- A descriptor whose `szDll` field is the given byte string and whose
other fields are arbitrary fixed values. -/
def sampleInfo (s : List Nat) : DelayLoadInfo :=
  ⟨120, 4096, 8192, s, 3, 16384, 0, 0⟩

/-- `_stricmp` only looks at its arguments through `toLowerByte`: strings
with the same lowercased bytes compare identically against anything. -/
theorem stricmp_congr_left (s t : List Nat)
    (h : s.map toLowerByte = t.map toLowerByte) :
    ∀ u : List Nat, stricmp s u = stricmp t u := by
  induction s generalizing t with
  | nil =>
      cases t with
      | nil => intro u; rfl
      | cons b bs => simp at h
  | cons a as ih =>
      cases t with
      | nil => simp at h
      | cons b bs =>
          simp only [List.map_cons, List.cons.injEq] at h
          obtain ⟨hab, hmap⟩ := h
          intro u
          cases u with
          | nil => simp only [stricmp, hab]
          | cons c cs => simp only [stricmp, hab, ih bs hmap cs]

/-- C1: for the pre-load notification event and a requested name that is
case-insensitively equal to `NODE_HOST_BINARY`, the hook returns exactly the
result of the no-name module lookup, and (the lookup having succeeded, as the
platform guarantees) that handle is non-null. -/
theorem hook_matching_name_returns_process_image
    (host : List Nat) (m : Nat) (info : DelayLoadInfo)
    (hm : m ≠ 0) (hmatch : stricmp info.szDll host = 0) :
    WinDelayLoadHookC.load_exe_hook host m dliNotePreLoadLibrary info = m ∧
    WinDelayLoadHookC.load_exe_hook host m dliNotePreLoadLibrary info ≠ 0 := by
  unfold WinDelayLoadHookC.load_exe_hook
  simp [hmatch, hm]

/-- C1 witness: with host name "app.exe", process image handle 7 and
requested name "APP.EXE", the hook returns the non-null handle 7. -/
theorem hook_matching_name_returns_process_image_witness :
    WinDelayLoadHookC.load_exe_hook appExeLower 7 dliNotePreLoadLibrary
      (sampleInfo appExeUpper) = 7 ∧
    WinDelayLoadHookC.load_exe_hook appExeLower 7 dliNotePreLoadLibrary
      (sampleInfo appExeUpper) ≠ 0 :=
  hook_matching_name_returns_process_image appExeLower 7
    (sampleInfo appExeUpper) (by decide) (by decide)

/-- C2: for the pre-load notification event and a requested name that is
not case-insensitively equal to `NODE_HOST_BINARY`, the hook returns NULL
("no opinion"), deferring resolution to the default loader. -/
theorem hook_nonmatching_name_no_opinion
    (host : List Nat) (m : Nat) (info : DelayLoadInfo)
    (hne : stricmp info.szDll host ≠ 0) :
    WinDelayLoadHookC.load_exe_hook host m dliNotePreLoadLibrary info = 0 := by
  unfold WinDelayLoadHookC.load_exe_hook
  simp [hne]

/-- C2 witness: with host name "app.exe" and requested name "other.dll",
the hook returns NULL. -/
theorem hook_nonmatching_name_no_opinion_witness :
    WinDelayLoadHookC.load_exe_hook appExeLower 7 dliNotePreLoadLibrary
      (sampleInfo otherDll) = 0 :=
  hook_nonmatching_name_no_opinion appExeLower 7 (sampleInfo otherDll)
    (by decide)

/-- C3: for any event code other than the pre-load notification, the hook
returns NULL regardless of the descriptor contents. -/
theorem hook_other_event_no_opinion
    (host : List Nat) (m event : Nat) (info : DelayLoadInfo)
    (hne : event ≠ dliNotePreLoadLibrary) :
    WinDelayLoadHookC.load_exe_hook host m event info = 0 := by
  unfold WinDelayLoadHookC.load_exe_hook
  simp [hne]

/-- C3 witness: event code 3 (`dliFailLoadLib`) with a matching name still
yields NULL. -/
theorem hook_other_event_no_opinion_witness :
    WinDelayLoadHookC.load_exe_hook appExeLower 7 3
      (sampleInfo appExeLower) = 0 :=
  hook_other_event_no_opinion appExeLower 7 3 (sampleInfo appExeLower)
    (by decide)

/-- C4: the hook result is invariant under changes of letter case in the
requested library name, for every event code and both source variants. -/
theorem hook_case_invariant
    (host : List Nat) (m event : Nat) (i j : DelayLoadInfo)
    (h : i.szDll.map toLowerByte = j.szDll.map toLowerByte) :
    WinDelayLoadHookC.load_exe_hook host m event i =
      WinDelayLoadHookC.load_exe_hook host m event j ∧
    WinDelayLoadHookCC.load_exe_hook host m event i =
      WinDelayLoadHookCC.load_exe_hook host m event j := by
  unfold WinDelayLoadHookC.load_exe_hook WinDelayLoadHookCC.load_exe_hook
  rw [stricmp_congr_left i.szDll j.szDll h host]
  exact ⟨rfl, rfl⟩

/-- C4 witness: "APP.EXE" and "app.exe" as requested names give the same
result in both variants. -/
theorem hook_case_invariant_witness :
    WinDelayLoadHookC.load_exe_hook appExeLower 7 dliNotePreLoadLibrary
        (sampleInfo appExeUpper) =
      WinDelayLoadHookC.load_exe_hook appExeLower 7 dliNotePreLoadLibrary
        (sampleInfo appExeLower) ∧
    WinDelayLoadHookCC.load_exe_hook appExeLower 7 dliNotePreLoadLibrary
        (sampleInfo appExeUpper) =
      WinDelayLoadHookCC.load_exe_hook appExeLower 7 dliNotePreLoadLibrary
        (sampleInfo appExeLower) :=
  hook_case_invariant appExeLower 7 dliNotePreLoadLibrary
    (sampleInfo appExeUpper) (sampleInfo appExeLower) (by decide)

/-- C5: if the no-name module lookup produced a null handle, the hook, on
the pre-load event with a matching name, returns NULL (and nothing else):
the loader then falls back to its default resolution. -/
theorem hook_null_lookup_returns_null
    (host : List Nat) (info : DelayLoadInfo)
    (hmatch : stricmp info.szDll host = 0) :
    WinDelayLoadHookC.load_exe_hook host 0 dliNotePreLoadLibrary info = 0 := by
  unfold WinDelayLoadHookC.load_exe_hook
  simp [hmatch]

/-- C5 witness: host name "app.exe", failed lookup (handle 0), matching
request "APP.EXE": the hook returns NULL. -/
theorem hook_null_lookup_returns_null_witness :
    WinDelayLoadHookC.load_exe_hook appExeLower 0 dliNotePreLoadLibrary
      (sampleInfo appExeUpper) = 0 :=
  hook_null_lookup_returns_null appExeLower (sampleInfo appExeUpper)
    (by decide)

/-- C6: the hook result is a pure function of the event code and the
requested name (plus the fixed process-image handle): descriptors equal in
`szDll` but arbitrary elsewhere give equal results. -/
theorem hook_depends_only_on_event_and_name
    (host : List Nat) (m e1 e2 : Nat) (i j : DelayLoadInfo)
    (he : e1 = e2) (hs : i.szDll = j.szDll) :
    WinDelayLoadHookC.load_exe_hook host m e1 i =
      WinDelayLoadHookC.load_exe_hook host m e2 j := by
  unfold WinDelayLoadHookC.load_exe_hook
  rw [he, hs]

/-- C6 witness: two descriptors sharing `szDll` = "app.exe" but differing in
every other field give the same result. -/
theorem hook_depends_only_on_event_and_name_witness :
    WinDelayLoadHookC.load_exe_hook appExeLower 7 dliNotePreLoadLibrary
        (sampleInfo appExeLower) =
      WinDelayLoadHookC.load_exe_hook appExeLower 7 dliNotePreLoadLibrary
        ⟨999, 1, 2, appExeLower, 5, 6, 7, 8⟩ :=
  hook_depends_only_on_event_and_name appExeLower 7 dliNotePreLoadLibrary
    dliNotePreLoadLibrary (sampleInfo appExeLower)
    ⟨999, 1, 2, appExeLower, 5, 6, 7, 8⟩ rfl rfl

/-- C7: repeated invocations with identical inputs (same event code and same
descriptor, under the unchanging process-image handle) produce identical
results. -/
theorem hook_idempotent
    (host : List Nat) (m e1 e2 : Nat) (i j : DelayLoadInfo)
    (he : e1 = e2) (hi : i = j) :
    WinDelayLoadHookC.load_exe_hook host m e1 i =
      WinDelayLoadHookC.load_exe_hook host m e2 j := by
  rw [he, hi]

/-- C7 witness: two successive calls with the exact same concrete input
return the same value. -/
theorem hook_idempotent_witness :
    WinDelayLoadHookC.load_exe_hook appExeLower 7 dliNotePreLoadLibrary
        (sampleInfo appExeUpper) =
      WinDelayLoadHookC.load_exe_hook appExeLower 7 dliNotePreLoadLibrary
        (sampleInfo appExeUpper) :=
  hook_idempotent appExeLower 7 dliNotePreLoadLibrary dliNotePreLoadLibrary
    (sampleInfo appExeUpper) (sampleInfo appExeUpper) rfl rfl

/-- C8: the C variant and the C++ variant implement the same function: for
every host name, lookup result, event code and descriptor they return equal
results. -/
theorem variants_equivalent :
    ∀ (host : List Nat) (m event : Nat) (info : DelayLoadInfo),
      WinDelayLoadHookC.load_exe_hook host m event info =
        WinDelayLoadHookCC.load_exe_hook host m event info :=
  fun _ _ _ _ => rfl

/-- C9: in both variants the registration symbol `__pfnDliNotifyHook2` is
initialized to the hook function `load_exe_hook`. -/
theorem notify_hook_registered_to_load_exe_hook :
    WinDelayLoadHookC.__pfnDliNotifyHook2 = WinDelayLoadHookC.load_exe_hook ∧
    WinDelayLoadHookCC.__pfnDliNotifyHook2 = WinDelayLoadHookCC.load_exe_hook :=
  ⟨rfl, rfl⟩

/-- C10: for any event code other than the pre-load notification, the hook
returns without reading the descriptor: at the pointer level it succeeds
(with the NULL result) on every descriptor pointer, including the null
pointer, because the name field is dereferenced only after the event check. -/
theorem hook_other_event_never_reads_descriptor
    (host : List Nat) (m event : Nat) (pinfo : Option DelayLoadInfo)
    (hne : event ≠ dliNotePreLoadLibrary) :
    load_exe_hookDeref host m event pinfo = some 0 := by
  unfold load_exe_hookDeref
  simp [hne]

/-- C10 witness: event code 0 (`dliStartProcessing`) with a null descriptor
pointer: the hook still completes and returns NULL. -/
theorem hook_other_event_never_reads_descriptor_witness :
    load_exe_hookDeref appExeLower 7 0 none = some 0 :=
  hook_other_event_never_reads_descriptor appExeLower 7 0 none (by decide)
